import Mathlib

/-!
Verification of the error taxonomy and byte-order configuration core of a
bincode-style codec. The definitions below are a shallow embedding of
`src/error.rs` and `src/config/endian.rs`; the byte-order strategy types of
the crate's `byteorder` module are not part of the given sources and are
modelled from the spec where indicated.
-/

namespace Bincode

/-- Model of `core2::io::Error` (external to this crate): an opaque I/O
failure identified by its rendered `Display` text. -/
structure IoError where
  msg : String
deriving DecidableEq, Repr

/-- Model of `core::str::Utf8Error` (external): identified by its rendered
`Display` text. -/
structure Utf8Error where
  msg : String
deriving DecidableEq, Repr

/-- Enum `ErrorKind` from `src/error.rs`: the closed classification of every
(de)serialization failure. `u8` and `usize` payloads are modelled as `Nat`. -/
inductive ErrorKind where
  | Io (err : IoError)
  | InvalidUtf8Encoding (err : Utf8Error)
  | InvalidBoolEncoding (b : Nat)
  | InvalidCharEncoding
  | InvalidTagEncoding (tag : Nat)
  | DeserializeAnyNotSupported
  | SizeLimit
  | SequenceMustHaveLength
  | Custom (msg : String)
deriving DecidableEq, Repr

/-- Alias `Error = Box<ErrorKind>` from `src/error.rs`: the box is an ownership device only, so the
model identifies the handle with its single `ErrorKind`. -/
abbrev Error := ErrorKind

/-- Method `ErrorKind::description` from the `StdError` impl in `src/error.rs`. -/
def ErrorKind.description : ErrorKind → String
  | .Io _ => "io error"
  | .InvalidUtf8Encoding _ => "string is not valid utf8"
  | .InvalidBoolEncoding _ => "invalid u8 while decoding bool"
  | .InvalidCharEncoding => "char is not valid"
  | .InvalidTagEncoding _ => "tag for enum is not valid"
  | .SequenceMustHaveLength =>
      "Bincode can only encode sequences and maps that have a knowable size ahead of time"
  | .DeserializeAnyNotSupported =>
      "Bincode doesn't support serde::Deserializer::deserialize_any"
  | .SizeLimit => "the size limit has been reached"
  | .Custom msg => msg

/-- The values a `cause` lookup could surface: the trait objects reachable
from an `ErrorKind` (`&dyn Error` in the source). -/
inductive DynError where
  | ofIo (err : IoError)
  | ofUtf8 (err : Utf8Error)
deriving DecidableEq, Repr

/-- Method `ErrorKind::cause` from the `StdError` impl in `src/error.rs`: every one
of the nine arms returns `None`. -/
def ErrorKind.cause : ErrorKind → Option DynError
  | .Io _ => none
  | .InvalidUtf8Encoding _ => none
  | .InvalidBoolEncoding _ => none
  | .InvalidCharEncoding => none
  | .InvalidTagEncoding _ => none
  | .SequenceMustHaveLength => none
  | .DeserializeAnyNotSupported => none
  | .SizeLimit => none
  | .Custom _ => none

/-- The `fmt::Display` impl for `ErrorKind` in `src/error.rs`, as the string
it writes to the formatter. `{}` interpolation of the wrapped `io::Error` /
`Utf8Error` uses their modelled rendered text. -/
def ErrorKind.display : ErrorKind → String
  | .Io ioerr => "io error: " ++ ioerr.msg
  | .InvalidUtf8Encoding e => "string is not valid utf8: " ++ e.msg
  | .InvalidBoolEncoding b =>
      "invalid u8 while decoding bool, expected 0 or 1, found " ++ toString b
  | .InvalidCharEncoding => "char is not valid"
  | .InvalidTagEncoding tag => "tag for enum is not valid: " ++ toString tag
  | .SequenceMustHaveLength => "sequence must have length"
  | .SizeLimit => "the size limit has been reached"
  | .DeserializeAnyNotSupported =>
      "Bincode does not support the serde::Deserializer::deserialize_any method"
  | .Custom s => s

/-- Conversion `impl From<io::Error> for Error` in `src/error.rs`:
`ErrorKind::Io(err).into()`. -/
def Error.fromIo (err : IoError) : Error := ErrorKind.Io err

/-- Constructor `serde::de::Error::custom` for `Error` in `src/error.rs`:
`ErrorKind::Custom(desc.to_string()).into()`. The displayable argument of
type `T : Display` is modelled by its carrier together with its `Display`
rendering function (`to_string`). -/
def serdeDeCustom {α : Type} (render : α → String) (desc : α) : Error :=
  ErrorKind.Custom (render desc)

/-- Constructor `serde::ser::Error::custom` for `Error` in `src/error.rs`:
`ErrorKind::Custom(msg.to_string()).into()`. -/
def serdeSerCustom {α : Type} (render : α → String) (msg : α) : Error :=
  ErrorKind.Custom (render msg)

/-- The constructor head (variant category) of an `ErrorKind`, used to state
payload-independence of `description`. -/
def ErrorKind.category : ErrorKind → Nat
  | .Io _ => 0
  | .InvalidUtf8Encoding _ => 1
  | .InvalidBoolEncoding _ => 2
  | .InvalidCharEncoding => 3
  | .InvalidTagEncoding _ => 4
  | .DeserializeAnyNotSupported => 5
  | .SizeLimit => 6
  | .SequenceMustHaveLength => 7
  | .Custom _ => 8

/-- The three zero-sized byte-order marker types of `src/config/endian.rs`. -/
inductive ConfigEndian where
  | LittleEndian
  | BigEndian
  | NativeEndian
deriving DecidableEq, Repr, Fintype

/-- Modelled from the spec: the byte-order strategy types of the crate's
`byteorder` module (`crate::byteorder::{LittleEndian, BigEndian,
NativeEndian}`), whose source is not among the given files. Per the spec
(§4.2, §8) they are three mutually distinct strategy types, `NativeEndian`
being the host environment's native byte-order strategy. -/
inductive ByteorderEndian where
  | LittleEndian
  | BigEndian
  | NativeEndian
deriving DecidableEq, Repr, Fintype

/-- The `BincodeByteOrder` trait of `src/config/endian.rs` as the type-level
function its three impls define: each marker's associated type `Endian`. -/
def BincodeByteOrder.Endian : ConfigEndian → ByteorderEndian
  | .LittleEndian => .LittleEndian
  | .BigEndian => .BigEndian
  | .NativeEndian => .NativeEndian

/-- Modelled from the spec: the little-endian strategy's multi-byte write
operation from the crate's `byteorder` module (not among the given files):
the `width` bytes of `x`, least-significant byte first. -/
def leWriteBytes : Nat → Nat → List Nat
  | 0, _ => []
  | width + 1, x => (x % 256) :: leWriteBytes width (x / 256)

/-- Modelled from the spec: the big-endian strategy's multi-byte write
operation from the crate's `byteorder` module (not among the given files):
the `width` bytes of `x`, most-significant byte first. -/
def beWriteBytes : Nat → Nat → List Nat
  | 0, _ => []
  | width + 1, x => beWriteBytes width (x / 256) ++ [x % 256]

/-- Helper: at every width, the big-endian write of a value is the exact
reversal of its little-endian write. -/
theorem beWriteBytes_eq_reverse_leWriteBytes (width : Nat) :
    ∀ x : Nat, beWriteBytes width x = (leWriteBytes width x).reverse := by
  induction width with
  | zero => intro x; rfl
  | succ k ih =>
      intro x
      simp [beWriteBytes, leWriteBytes, ih]

/-- C1: the three byte-order marker types, resolved through the
`BincodeByteOrder` mapping to their associated `Endian` strategy, give three
mutually distinct strategy types: every pair of distinct markers has
different associated strategies. -/
theorem endian_markers_resolve_distinct (m1 m2 : ConfigEndian) (h : m1 ≠ m2) :
    BincodeByteOrder.Endian m1 ≠ BincodeByteOrder.Endian m2 := by
  revert m1 m2
  decide

/-- Witness for C1 at a concrete pair of distinct markers. -/
theorem endian_markers_resolve_distinct_witness :
    BincodeByteOrder.Endian ConfigEndian.LittleEndian ≠
      BincodeByteOrder.Endian ConfigEndian.BigEndian :=
  endian_markers_resolve_distinct ConfigEndian.LittleEndian ConfigEndian.BigEndian
    (by decide)

/-- C2 counterexample: it is not the case that every `ErrorKind`'s
`description` is determined solely by its variant category independently of
the payload — the `Custom` variant's `description` is its carried message, so
`Custom "a"` and `Custom "b"` share a category but not a description. -/
theorem description_payload_independent_refuted :
    ¬ ((∀ e1 e2 : ErrorKind, e1.category = e2.category →
          e1.description = e2.description) ∧
       (∀ ioerr : IoError, (ErrorKind.Io ioerr).description = "io error")) := by
  intro h
  have hab := h.1 (ErrorKind.Custom "a") (ErrorKind.Custom "b") rfl
  simp [ErrorKind.description] at hab

/-- C2 (amended): for every `ErrorKind` variant other than `Custom`, the
`description` lookup returns a fixed string determined solely by the
variant's category, independent of the carried payload; in particular every
`Io` error has description "io error". -/
theorem description_fixed_per_category_except_custom :
    (∀ e1 e2 : ErrorKind, e1.category = e2.category →
        (∀ s, e1 ≠ ErrorKind.Custom s) → e1.description = e2.description) ∧
    (∀ ioerr : IoError, (ErrorKind.Io ioerr).description = "io error") := by
  constructor
  · intro e1 e2 hcat hnc
    cases e1 <;> cases e2 <;>
      first
        | rfl
        | (exact absurd rfl (hnc _))
        | (simp [ErrorKind.category] at hcat)
  · intro ioerr
    rfl

/-- Witness for the amended C2: two `InvalidBoolEncoding` errors with
different payloads share one description, and a concrete `Io` error
describes as "io error". -/
theorem description_fixed_per_category_except_custom_witness :
    (ErrorKind.InvalidBoolEncoding 3).description =
      (ErrorKind.InvalidBoolEncoding 250).description ∧
    (ErrorKind.Io ⟨"unexpected eof"⟩).description = "io error" :=
  ⟨description_fixed_per_category_except_custom.1
      (ErrorKind.InvalidBoolEncoding 3) (ErrorKind.InvalidBoolEncoding 250) rfl
      (fun _ h => ErrorKind.noConfusion h),
   description_fixed_per_category_except_custom.2 ⟨"unexpected eof"⟩⟩

/-- C3: the underlying-cause lookup returns `none` for every `ErrorKind`
variant, the `Io` variant included. -/
theorem cause_always_none : ∀ e : ErrorKind, e.cause = none := by
  intro e
  cases e <;> rfl

/-- C4: for every byte `b`, `InvalidBoolEncoding b` renders as
"invalid u8 while decoding bool, expected 0 or 1, found {b}", and for every
tag `t`, `InvalidTagEncoding t` renders as "tag for enum is not valid: {t}". -/
theorem display_bool_and_tag_templates :
    (∀ b : Nat, b < 256 → (ErrorKind.InvalidBoolEncoding b).display =
        "invalid u8 while decoding bool, expected 0 or 1, found " ++ toString b) ∧
    (∀ t : Nat, (ErrorKind.InvalidTagEncoding t).display =
        "tag for enum is not valid: " ++ toString t) :=
  ⟨fun _ _ => rfl, fun _ => rfl⟩

/-- Witness for C4 at the spec's own example inputs: byte 7 and tag 5. -/
theorem display_bool_and_tag_templates_witness :
    (ErrorKind.InvalidBoolEncoding 7).display =
      "invalid u8 while decoding bool, expected 0 or 1, found 7" ∧
    (ErrorKind.InvalidTagEncoding 5).display = "tag for enum is not valid: 5" :=
  ⟨(display_bool_and_tag_templates.1 7 (by decide)).trans (by decide),
   (display_bool_and_tag_templates.2 5).trans (by decide)⟩

/-- C5: converting an I/O failure into an `Error` always yields the `Io`
variant wrapping exactly that failure, and the conversion loses no
information (it is injective). -/
theorem from_io_error_yields_io (err : IoError) :
    Error.fromIo err = ErrorKind.Io err ∧
    ∀ err2 : IoError, Error.fromIo err = Error.fromIo err2 → err = err2 :=
  ⟨rfl, fun _ h => ErrorKind.Io.inj h⟩

/-- Witness for C5 at a concrete I/O failure. -/
theorem from_io_error_yields_io_witness :
    Error.fromIo ⟨"unexpected eof"⟩ = ErrorKind.Io ⟨"unexpected eof"⟩ ∧
    (⟨"unexpected eof"⟩ : IoError) = ⟨"unexpected eof"⟩ :=
  ⟨(from_io_error_yields_io ⟨"unexpected eof"⟩).1,
   (from_io_error_yields_io ⟨"unexpected eof"⟩).2 ⟨"unexpected eof"⟩ rfl⟩

/-- C6: constructing a `Custom` error from a displayable message through
either the deserializer-side or the serializer-side constructor yields a
`Custom` variant whose rendered `Display` text is exactly the message's own
rendered text, with nothing added. -/
theorem custom_display_roundtrip {α : Type} (render : α → String) (M : α) :
    (serdeDeCustom render M).display = render M ∧
    (serdeSerCustom render M).display = render M :=
  ⟨rfl, rfl⟩

/-- C7: the marker-to-strategy mapping is total and fixed — every marker
resolves to exactly one strategy — with the Little marker resolving to the
little-endian strategy, Big to the big-endian strategy, and Native to the
host's native byte-order strategy. -/
theorem byte_order_mapping_total_fixed :
    (∀ m : ConfigEndian, ∃! e : ByteorderEndian, BincodeByteOrder.Endian m = e) ∧
    BincodeByteOrder.Endian ConfigEndian.LittleEndian = ByteorderEndian.LittleEndian ∧
    BincodeByteOrder.Endian ConfigEndian.BigEndian = ByteorderEndian.BigEndian ∧
    BincodeByteOrder.Endian ConfigEndian.NativeEndian = ByteorderEndian.NativeEndian :=
  ⟨fun m => ⟨BincodeByteOrder.Endian m, rfl, fun _ hy => hy.symm⟩, rfl, rfl, rfl⟩

/-- C8: for every multi-byte width, encoding a value with the Little
marker's resolved strategy and with the Big marker's resolved strategy
produces byte sequences that are exact reversals of each other. -/
theorem le_be_write_reversal (width x : Nat) (_h : 2 ≤ width) :
    beWriteBytes width x = (leWriteBytes width x).reverse :=
  beWriteBytes_eq_reverse_leWriteBytes width x

/-- Witness for C8 at the 8-byte value 0x0123456789ABCDEF. -/
theorem le_be_write_reversal_witness :
    beWriteBytes 8 81985529216486895 = (leWriteBytes 8 81985529216486895).reverse :=
  le_be_write_reversal 8 81985529216486895 (by decide)

/-- C9: the serializer-side and deserializer-side custom-error constructors
are extensionally equal — on the same displayable input they build identical
`Error` values. -/
theorem ser_de_custom_extensionally_equal {α : Type} (render : α → String) (x : α) :
    serdeSerCustom render x = serdeDeCustom render x :=
  rfl

/-- C10 counterexample: the payload-less variants do render to the four
listed strings, but the claim's note that the last two listed variants
(`SizeLimit` and `DeserializeAnyNotSupported`) both differ in wording from
their description strings is false — `SizeLimit`'s rendered text is
identical to its description. -/
theorem fixed_variant_display_claim_refuted :
    ¬ ((ErrorKind.InvalidCharEncoding.display = "char is not valid") ∧
       (ErrorKind.SequenceMustHaveLength.display = "sequence must have length") ∧
       (ErrorKind.SizeLimit.display = "the size limit has been reached") ∧
       (ErrorKind.DeserializeAnyNotSupported.display =
         "Bincode does not support the serde::Deserializer::deserialize_any method") ∧
       ErrorKind.SizeLimit.display ≠ ErrorKind.SizeLimit.description ∧
       ErrorKind.DeserializeAnyNotSupported.display ≠
         ErrorKind.DeserializeAnyNotSupported.description) := by
  decide

/-- C10 (amended): each payload-less variant renders to its one fixed
string; `SequenceMustHaveLength` and `DeserializeAnyNotSupported` differ in
wording from their description strings, while `SizeLimit`'s rendered text
coincides with its description. -/
theorem fixed_variant_display_strings :
    (ErrorKind.InvalidCharEncoding.display = "char is not valid") ∧
    (ErrorKind.SequenceMustHaveLength.display = "sequence must have length") ∧
    (ErrorKind.SizeLimit.display = "the size limit has been reached") ∧
    (ErrorKind.DeserializeAnyNotSupported.display =
      "Bincode does not support the serde::Deserializer::deserialize_any method") ∧
    ErrorKind.SequenceMustHaveLength.display ≠
      ErrorKind.SequenceMustHaveLength.description ∧
    ErrorKind.DeserializeAnyNotSupported.display ≠
      ErrorKind.DeserializeAnyNotSupported.description ∧
    ErrorKind.SizeLimit.display = ErrorKind.SizeLimit.description := by
  decide

end Bincode
